import Mathlib

/-!
Verification of the erela.js Deezer plugin (src/index.ts) against its
natural-language specification.

The development shallowly embeds the plugin's behavioral logic:
URL classification (the REGEX), the three catalog fetchers, the track
normalizer (convertToUnresolved), the result builder (buildSearch), and
the search interceptor (Deezer.search).  JavaScript exceptions are
modelled with Except, nullable values with Option, and the remote HTTP
layer and the host framework are parameters of the embedded functions.
-/

deriving instance DecidableEq for Except

/-- JavaScript values a raw track title can hold: a string, or a
non-string value (modelled by a number, the representative the code's
typeof diagnostic mentions). -/
inductive JVal where
  | jstr (s : String)
  | jnum (n : Int)
deriving DecidableEq

/-- JavaScript truthiness of a JVal: a string is truthy iff non-empty,
a number is truthy iff non-zero. -/
def truthyJ : JVal → Bool
  | .jstr s => !(s = "")
  | .jnum n => !(n = 0)

/-- Truthiness of a possibly-absent title field, as tested by the
source's item.title and track.title checks. -/
def titleTruthy : Option JVal → Bool
  | none => false
  | some v => truthyJ v

/-- The artist object of a raw Deezer track; its name may be absent. -/
structure Artist where
  name : Option String
deriving DecidableEq

/-- A raw Deezer track payload (interface DeezerTrack): artist and title
may be absent in real catalog data; a missing duration models the
undefined-number case (NaN after arithmetic). -/
structure RawTrack where
  artist : Option Artist
  title : Option JVal
  duration : Option Int
deriving DecidableEq

/-- The canonical unresolved descriptor produced by the normalizer
(interface UnresolvedQuery): title, author (artist.name, possibly
absent), and duration in milliseconds (absent models NaN). -/
structure UnresolvedQuery where
  title : String
  author : Option String
  duration : Option Int
deriving DecidableEq

/-- JavaScript exceptions thrown inside the plugin: ReferenceError and
TypeError from the normalizer and runtime, and a generic thrown value
(for example an axios transport error) carrying the optional loadType
and message properties the catch block reads. -/
inductive JsError where
  | refError (msg : String)
  | typeError (msg : String)
  | jsError (loadType : Option String) (message : Option String)
deriving DecidableEq

/-- The loadType property read by the catch block: undefined on
ReferenceError and TypeError. -/
def JsError.loadTypeField : JsError → Option String
  | .refError _ => none
  | .typeError _ => none
  | .jsError lt _ => lt

/-- The message property read by the catch block. -/
def JsError.messageField : JsError → Option String
  | .refError m => some m
  | .typeError m => some m
  | .jsError _ m => m

/-- Deezer.convertToUnresolved: validates a raw track and converts it,
translated check for check from the source.  The title check is the
JavaScript truthiness test (track.title is falsy when the title is
absent, the empty string, or the number zero), followed by the
typeof-string check; duration is scaled by 1000 (absent stays absent,
mirroring NaN propagation). -/
def convertToUnresolved : Option RawTrack → Except JsError UnresolvedQuery
  | none => .error (.refError "The Deezer track object was not provided")
  | some tr =>
    match tr.artist with
    | none => .error (.refError "The track artist array was not provided")
    | some art =>
      if titleTruthy tr.title then
        match tr.title with
        | some (.jstr s) =>
          .ok { title := s, author := art.name,
                duration := tr.duration.map (fun d => d * 1000) }
        | _ => .error (.typeError "The track name must be a string, received type number")
      else .error (.refError "The track title was not provided")

/-- The plugin options (interface DeezerOptions). -/
structure DeezerOptions where
  playlistLimit : Option Int := none
  albumLimit : Option Int := none
  convertUnresolved : Option Bool := none
deriving DecidableEq

/-- A fetcher result (interface Result): normalized tracks and an
optional display name. -/
structure Result where
  tracks : List UnresolvedQuery
  name : Option String := none
deriving DecidableEq

/-- The track list wrapper of an album payload (interface AlbumTracks). -/
structure AlbumTracks where
  data : List RawTrack
deriving DecidableEq

/-- An album payload (interface Album). -/
structure Album where
  name : Option String
  tracks : AlbumTracks
deriving DecidableEq

/-- One entry of a playlist payload: an object wrapping a track. -/
structure PlaylistItem where
  track : RawTrack
deriving DecidableEq

/-- The track list wrapper of a playlist payload (interface PlaylistTracks). -/
structure PlaylistTracks where
  data : List PlaylistItem
deriving DecidableEq

/-- A playlist payload (interface Playlist). -/
structure Playlist where
  name : Option String
  tracks : PlaylistTracks
deriving DecidableEq

/-- The album mapping step of getAlbumTracks: each item with a truthy
title is normalized (a normalizer throw propagates, aborting the map),
items with a falsy title become null and are filtered out. -/
def mapAlbumItems : List RawTrack → Except JsError (List UnresolvedQuery)
  | [] => .ok []
  | item :: rest =>
    if titleTruthy item.title then
      match convertToUnresolved (some item) with
      | .error e => .error e
      | .ok q =>
        match mapAlbumItems rest with
        | .error e => .error e
        | .ok qs => .ok (q :: qs)
    else mapAlbumItems rest

/-- The playlist mapping step of getPlaylistTracks, identical to the
album one but reading item.track. -/
def mapPlaylistItems : List PlaylistItem → Except JsError (List UnresolvedQuery)
  | [] => .ok []
  | item :: rest =>
    if titleTruthy item.track.title then
      match convertToUnresolved (some item.track) with
      | .error e => .error e
      | .ok q =>
        match mapPlaylistItems rest with
        | .error e => .error e
        | .ok qs => .ok (q :: qs)
    else mapPlaylistItems rest

/-- The truthiness-guarded truncation shared by both container
fetchers: limit ? tracks.splice(0, limit) : tracks.  A zero limit is
falsy (no truncation); splice with a negative count removes nothing
(Int.toNat sends negatives to zero). -/
def applyLimit (limit : Option Int) (ts : List UnresolvedQuery) : List UnresolvedQuery :=
  match limit with
  | some n => if n = 0 then ts else ts.take n.toNat
  | none => ts

/-- The album display name default: album.name when truthy, else the
Untitled album placeholder. -/
def albumName : Option String → String
  | some n => if n = "" then "Untitled album" else n
  | none => "Untitled album"

/-- The playlist display name default: playlist.name when truthy, else
the Untitled playlist placeholder. -/
def playlistName : Option String → String
  | some n => if n = "" then "Untitled playlist" else n
  | none => "Untitled playlist"

/-- Deezer.getAlbumTracks after the HTTP response arrived: normalize
and filter the items, truncate by albumLimit, default the name to the
Untitled album placeholder when falsy. -/
def getAlbumTracks (opts : DeezerOptions) (album : Album) : Except JsError Result :=
  match mapAlbumItems album.tracks.data with
  | .error e => .error e
  | .ok ts =>
    .ok { tracks := applyLimit opts.albumLimit ts, name := some (albumName album.name) }

/-- Deezer.getPlaylistTracks after the HTTP response arrived. -/
def getPlaylistTracks (opts : DeezerOptions) (playlist : Playlist) : Except JsError Result :=
  match mapPlaylistItems playlist.tracks.data with
  | .error e => .error e
  | .ok ts =>
    .ok { tracks := applyLimit opts.playlistLimit ts,
          name := some (playlistName playlist.name) }

/-- Deezer.getTrack after the HTTP response arrived: a normalizer throw
propagates, otherwise the result holds exactly the one converted track
and no name. -/
def getTrack (data : Option RawTrack) : Except JsError Result :=
  match convertToUnresolved data with
  | .error e => .error e
  | .ok track => .ok { tracks := [track] }

/-- JavaScript word character, the regex class backslash-w. -/
def isWordChar (c : Char) : Bool := c.isAlphanum || c = '_'

/-- Strips the given literal prefix from the input, returning the
remainder, or none when the input does not start with it. -/
def stripPre : List Char → List Char → Option (List Char)
  | [], s => some s
  | _ :: _, [] => none
  | p :: ps, c :: cs => if c = p then stripPre ps cs else none

/-- Character list of the https scheme alternative of the REGEX. -/
def httpsPre : List Char := ['h', 't', 't', 'p', 's', ':', '/', '/']

/-- Character list of the http scheme alternative of the REGEX. -/
def httpPre : List Char := ['h', 't', 't', 'p', ':', '/', '/']

/-- Character list of the optional www segment of the REGEX. -/
def wwwPre : List Char := ['w', 'w', 'w', '.']

/-- Character list of the mandatory host segment of the REGEX. -/
def hostPre : List Char := ['d', 'e', 'e', 'z', 'e', 'r', '.', 'c', 'o', 'm', '/']

/-- Character list of the track alternative, slash included. -/
def trackPre : List Char := ['t', 'r', 'a', 'c', 'k', '/']

/-- Character list of the album alternative, slash included. -/
def albumPre : List Char := ['a', 'l', 'b', 'u', 'm', '/']

/-- Character list of the playlist alternative, slash included. -/
def playlistPre : List Char := ['p', 'l', 'a', 'y', 'l', 'i', 's', 't', '/']

/-- The scheme part of the REGEX: an optional http or https scheme is
stripped; both alternatives start with a character no later part of the
pattern starts with, so committed stripping matches the regex engine's
backtracking behavior. -/
def stripScheme (s : List Char) : List Char :=
  match stripPre httpsPre s with
  | some r => r
  | none =>
    match stripPre httpPre s with
    | some r => r
    | none => s

/-- The optional www segment of the REGEX; an input starting with the
www segment can never also start with the host, so committed stripping
matches the regex engine's backtracking behavior. -/
def stripWww (s : List Char) : List Char :=
  match stripPre wwwPre s with
  | some r => r
  | none => s

/-- The kind alternation of the REGEX together with the following
slash, tried in the pattern's order track, album, playlist. -/
def matchKind (s : List Char) : Option (String × List Char) :=
  match stripPre trackPre s with
  | some r => some ("track", r)
  | none =>
    match stripPre albumPre s with
    | some r => some ("album", r)
    | none =>
      match stripPre playlistPre s with
      | some r => some ("playlist", r)
      | none => none

/-- The kind alternation followed by the digit capture of the REGEX:
one or more digits, captured greedily; trailing characters after the
digits are allowed because the pattern has no end anchor. -/
def matchKindId (s : List Char) : Option (String × String) :=
  match matchKind s with
  | none => none
  | some (k, r) =>
    let ds := r.takeWhile Char.isDigit
    if ds.isEmpty then none else some (k, String.mk ds)

/-- The part of the REGEX after the host: an optional two-word-char
locale segment followed by the kind and id.  The locale group is tried
first (greedy) and abandoned when the rest of the pattern fails after
it, exactly as the regex engine backtracks over the optional group. -/
def classifyCore (s : List Char) : Option (String × String) :=
  match s with
  | c1 :: c2 :: c3 :: rest =>
    if isWordChar c1 && isWordChar c2 && (c3 == '/') then
      match matchKindId rest with
      | some r => some r
      | none => matchKindId (c1 :: c2 :: c3 :: rest)
    else matchKindId (c1 :: c2 :: c3 :: rest)
  | _ => matchKindId s

/-- The whole REGEX, anchored at the start of the input: optional
scheme, optional www, the literal deezer.com slash host, optional
locale, kind and id captures. -/
def classifyL (s : List Char) : Option (String × String) :=
  match stripPre hostPre (stripWww (stripScheme s)) with
  | none => none
  | some r => classifyCore r

/-- finalQuery.match(REGEX) with the two capture groups extracted, as
destructured by the source's bracket-comma-type-comma-id binding. -/
def classify (s : String) : Option (String × String) := classifyL s.data

/-- Modelled from the spec: TrackUtils.buildUnresolved belongs to the
host framework erela.js, not to this repository.  Per the spec the
built unresolved track carries the descriptor's title, author and
duration unchanged together with the opaque requester token, which is
passed through unchanged to produced track descriptors. -/
structure UnresolvedTrack (R : Type) where
  title : String
  author : Option String
  duration : Option Int
  requester : R
deriving DecidableEq

/-- Modelled from the spec: the host's TrackUtils.buildUnresolved
copies the descriptor fields and attaches the requester. -/
def buildUnresolved {R : Type} (q : UnresolvedQuery) (req : R) : UnresolvedTrack R :=
  { title := q.title, author := q.author, duration := q.duration, requester := req }

/-- The playlist summary of a search result. -/
structure PlaylistInfo where
  name : String
  duration : Int
deriving DecidableEq

/-- The exception payload of a search result. -/
structure ExceptionInfo where
  message : String
  severity : String
deriving DecidableEq

/-- The search result envelope (interface SearchResult), parameterized
by the opaque requester type carried inside each track. -/
structure SearchResult (R : Type) where
  loadType : String
  tracks : List (UnresolvedTrack R)
  playlist : Option PlaylistInfo
  exception : Option ExceptionInfo
deriving DecidableEq

/-- The exception field of buildSearch: error ? message-and-severity :
null, where an empty message string is falsy. -/
def exceptionOf : Option String → Option ExceptionInfo
  | none => none
  | some m => if m = "" then none else some { message := m, severity := "COMMON" }

/-- The reduce computing the playlist duration in buildSearch: each
track contributes cur.duration or zero when falsy or NaN. -/
def sumDurations {R : Type} (ts : List (UnresolvedTrack R)) : Int :=
  ts.foldl (fun acc cur => acc + cur.duration.getD 0) 0

/-- The buildSearch helper, translated from the source.  The playlist
summary is built only for a truthy name; its duration reduces over the
original tracks argument, which throws a TypeError when that argument
is null, before the null-coalescing default for the tracks field can
help. -/
def buildSearch {R : Type} (loadType : String) (tracks : Option (List (UnresolvedTrack R)))
    (error : Option String) (name : Option String) : Except JsError (SearchResult R) :=
  match name with
  | some n =>
    if n = "" then
      .ok { loadType := loadType, tracks := tracks.getD [], playlist := none,
            exception := exceptionOf error }
    else
      match tracks with
      | none => .error (.typeError "Cannot read properties of null (reading reduce)")
      | some ts =>
        .ok { loadType := loadType, tracks := ts,
              playlist := some { name := n, duration := sumDurations ts },
              exception := exceptionOf error }
  | none =>
    .ok { loadType := loadType, tracks := tracks.getD [], playlist := none,
          exception := exceptionOf error }

/-- The per-track mapping step of Deezer.search: build the unresolved
track, optionally resolve it eagerly (a resolve throw turns the entry
into null), then filter the nulls out. -/
def processTracks {R : Type} (opts : DeezerOptions) (res : UnresolvedTrack R → Bool)
    (requester : R) (qs : List UnresolvedQuery) : List (UnresolvedTrack R) :=
  (qs.map (fun q =>
    let track := buildUnresolved q requester
    if opts.convertUnresolved.getD false then
      if res track then some track else none
    else some track)).filterMap id

/-- The dispatch through this.functions keyed by the captured kind,
with the remote fetch modelled by the three response functions; a fetch
rejection or a normalizer throw surfaces as the error. -/
def runFunc (opts : DeezerOptions)
    (fT : String → Except JsError (Option RawTrack))
    (fA : String → Except JsError Album)
    (fP : String → Except JsError Playlist)
    (ty id : String) : Except JsError Result :=
  if ty = "track" then
    match fT id with
    | .error e => .error e
    | .ok d => getTrack d
  else if ty = "album" then
    match fA id with
    | .error e => .error e
    | .ok a => getAlbumTracks opts a
  else
    match fP id with
    | .error e => .error e
    | .ok p => getPlaylistTracks opts p

/-- The second-layer name default of Deezer.search for container
kinds: data.name when truthy, else the Untitled placeholder. -/
def containerName : Option String → String
  | some nm => if nm = "" then "Untitled" else nm
  | none => "Untitled"

/-- The body of the try block of Deezer.search, for a kind that passed
the membership test: dispatch, pick the load type and the
second-layer Untitled name default for container kinds, map the tracks,
and build the outcome. -/
def tryBody {R : Type} (opts : DeezerOptions)
    (fT : String → Except JsError (Option RawTrack))
    (fA : String → Except JsError Album)
    (fP : String → Except JsError Playlist)
    (res : UnresolvedTrack R → Bool) (requester : R)
    (ty id : String) : Except JsError (SearchResult R) :=
  match runFunc opts fT fA fP ty id with
  | .error e => .error e
  | .ok data =>
    let loadType := if ty = "track" then "TRACK_LOADED" else "PLAYLIST_LOADED"
    let name : Option String :=
      if ty = "playlist" ∨ ty = "album" then some (containerName data.name) else none
    buildSearch loadType (some (processTracks opts res requester data.tracks)) none name

/-- A search invocation input: a plain query string, or a structured
query object with its query text field. -/
inductive Query where
  | qstr (s : String)
  | qobj (q : String)
deriving DecidableEq

/-- The finalQuery expression of Deezer.search: the structured form's
text when truthy, else the input itself.  A structured input with an
empty (falsy) text falls back to the query object itself, on which the
subsequent finalQuery.match call throws a TypeError. -/
def getFinalQuery : Query → Except JsError String
  | .qstr s => .ok s
  | .qobj q => if q = "" then .error (.typeError "finalQuery.match is not a function") else .ok q

/-- Deezer.search, translated from the source: extract the query text,
classify it, delegate to the captured original search on no match (the
captured kind of a match is always a key of this.functions), otherwise
run the try block and translate a thrown error through the catch block
into a LOAD_FAILED style outcome. -/
def search {R : Type} (opts : DeezerOptions)
    (origSearch : Query → R → Except JsError (SearchResult R))
    (fT : String → Except JsError (Option RawTrack))
    (fA : String → Except JsError Album)
    (fP : String → Except JsError Playlist)
    (res : UnresolvedTrack R → Bool)
    (query : Query) (requester : R) : Except JsError (SearchResult R) :=
  match getFinalQuery query with
  | .error e => .error e
  | .ok fq =>
    match classify fq with
    | some (ty, id) =>
      if ty = "track" ∨ ty = "album" ∨ ty = "playlist" then
        match tryBody opts fT fA fP res requester ty id with
        | .ok r => .ok r
        | .error e =>
          buildSearch (e.loadTypeField.getD "LOAD_FAILED") none e.messageField none
      else origSearch query requester
    | none => origSearch query requester

/-- Stripping a literal prefix from an input that starts with exactly
that prefix yields the remainder. -/
theorem stripPre_append (p t : List Char) : stripPre p (p ++ t) = some t := by
  induction p with
  | nil => rfl
  | cons a ps ih => simp [stripPre, ih]

/-- A list all of whose characters are digits is its own digit run. -/
theorem takeWhile_digits_all (l : List Char) (h : ∀ c ∈ l, c.isDigit) :
    l.takeWhile Char.isDigit = l := by
  induction l with
  | nil => rfl
  | cons a as ih =>
    have ha : a.isDigit := h a (List.mem_cons_self a as)
    have hrest := ih (fun c hc => h c (List.mem_cons_of_mem a hc))
    simp only [List.takeWhile, ha, hrest]

/-- The duration reduce of buildSearch computes the sum of the
per-track durations, an absent duration counting as zero. -/
theorem sumDurations_eq_sum {R : Type} (ts : List (UnresolvedTrack R)) :
    sumDurations ts = (ts.map (fun t => t.duration.getD 0)).sum := by
  have aux : ∀ (l : List (UnresolvedTrack R)) (a : Int),
      l.foldl (fun acc cur => acc + cur.duration.getD 0) a
        = a + (l.map (fun t => t.duration.getD 0)).sum := by
    intro l
    induction l with
    | nil => intro a; simp
    | cons t l ih =>
      intro a
      simp [List.foldl, ih, add_assoc]
  have := aux ts 0
  simpa [sumDurations] using this

/-- A concrete original host search used by concrete instantiations:
it returns a fixed recognizable result. -/
def origFixed : Query → Nat → Except JsError (SearchResult Nat) :=
  fun _ _ => .ok { loadType := "SEARCH_RESULT", tracks := [], playlist := none, exception := none }

/-- A concrete track fetcher returning one well-formed raw track. -/
def fTrackFixed : String → Except JsError (Option RawTrack) :=
  fun _ => .ok (some { artist := some { name := some "Miley" },
                       title := some (.jstr "Flowers"), duration := some 215 })

/-- A concrete album fetcher returning an empty album. -/
def fAlbumFixed : String → Except JsError Album :=
  fun _ => .ok { name := none, tracks := { data := [] } }

/-- A concrete playlist fetcher returning an empty playlist. -/
def fPlaylistFixed : String → Except JsError Playlist :=
  fun _ => .ok { name := none, tracks := { data := [] } }

/-- C1 (amended): for every input whose extracted query text is a
string, namely a plain string input or a structured input with
non-empty query text, and whose text does not match the catalog URL
pattern, the interceptor returns the captured original host search's
result for the original query and requester verbatim; the result does
not depend on the fetchers, so no fetch and no result construction of
the interceptor's own takes place. -/
theorem c1_delegation {R : Type} (opts : DeezerOptions)
    (origSearch : Query → R → Except JsError (SearchResult R))
    (fT : String → Except JsError (Option RawTrack))
    (fA : String → Except JsError Album)
    (fP : String → Except JsError Playlist)
    (res : UnresolvedTrack R → Bool)
    (query : Query) (requester : R) (s : String)
    (hq : getFinalQuery query = .ok s) (hc : classify s = none) :
    search opts origSearch fT fA fP res query requester = origSearch query requester := by
  simp only [search, hq, hc]

/-- C1 witness: the ordinary text query flowers does not match the
pattern and is delegated verbatim. -/
theorem c1_delegation_witness :
    getFinalQuery (Query.qstr "flowers") = .ok "flowers"
    ∧ classify "flowers" = none
    ∧ search {} origFixed fTrackFixed fAlbumFixed fPlaylistFixed (fun _ => true)
        (Query.qstr "flowers") 0 = origFixed (Query.qstr "flowers") 0 :=
  ⟨rfl, by decide,
   c1_delegation {} origFixed fTrackFixed fAlbumFixed fPlaylistFixed (fun _ => true)
     (Query.qstr "flowers") 0 "flowers" rfl (by decide)⟩

/-- C1 counterexample: a structured query input whose query text is the
empty string does not match the catalog URL pattern, yet the
interceptor does not delegate: the text is falsy, so finalQuery falls
back to the query object itself and the match call on it throws a
TypeError, while the original host search would have returned a
result. -/
theorem c1_counterexample :
    search {} origFixed fTrackFixed fAlbumFixed fPlaylistFixed (fun _ => true)
        (Query.qobj "") 0 = .error (.typeError "finalQuery.match is not a function")
    ∧ origFixed (Query.qobj "") 0
        = .ok { loadType := "SEARCH_RESULT", tracks := [], playlist := none, exception := none } :=
  ⟨rfl, rfl⟩

/-- C9: the result builder is not total: with a null tracks argument
and a truthy playlist name the duration reduce runs on null and throws
a TypeError, so no outcome with empty tracks is returned; the
tracks-default-to-empty rule protects only the tracks field, as the
second conjunct shows for a falsy name. -/
theorem c9_buildSearch_null_tracks :
    (∀ (R : Type) (lt : String) (err : Option String) (nm : String), nm ≠ "" →
      buildSearch (R := R) lt none err (some nm)
        = .error (.typeError "Cannot read properties of null (reading reduce)"))
    ∧ (∀ (R : Type) (lt : String) (err : Option String),
      ∃ r, buildSearch (R := R) lt none err none = .ok r ∧ r.tracks = []) := by
  constructor
  · intro R lt err nm hnm
    simp [buildSearch, hnm]
  · intro R lt err
    exact ⟨_, rfl, rfl⟩

/-- C9 witness: the two branches of the theorem at concrete inputs. -/
theorem c9_buildSearch_null_tracks_witness :
    buildSearch (R := Nat) "TRACK_LOADED" none (some "boom") (some "My list")
      = .error (.typeError "Cannot read properties of null (reading reduce)")
    ∧ ∃ r, buildSearch (R := Nat) "LOAD_FAILED" none (some "boom") none = .ok r ∧ r.tracks = [] :=
  ⟨c9_buildSearch_null_tracks.1 Nat "TRACK_LOADED" (some "boom") "My list" (by decide),
   c9_buildSearch_null_tracks.2 Nat "LOAD_FAILED" (some "boom")⟩

/-- C2 (amended): for every matched catalog URL whose fetcher
invocation throws, the interceptor returns a normal outcome, never
propagating the exception: its loadType is the thrown failure's own
declared load type when present and LOAD_FAILED otherwise, its track
list is empty, and its failure field carries the thrown failure's
message when that message is a non-empty string and is absent when
the message is empty or missing. -/
theorem c2_fetch_failure_translated {R : Type} (opts : DeezerOptions)
    (origSearch : Query → R → Except JsError (SearchResult R))
    (fT : String → Except JsError (Option RawTrack))
    (fA : String → Except JsError Album)
    (fP : String → Except JsError Playlist)
    (res : UnresolvedTrack R → Bool)
    (query : Query) (requester : R) (s ty id : String) (e : JsError)
    (hq : getFinalQuery query = .ok s)
    (hc : classify s = some (ty, id))
    (hty : ty = "track" ∨ ty = "album" ∨ ty = "playlist")
    (hf : runFunc opts fT fA fP ty id = .error e) :
    search opts origSearch fT fA fP res query requester
      = .ok { loadType := e.loadTypeField.getD "LOAD_FAILED", tracks := [],
              playlist := none, exception := exceptionOf e.messageField } := by
  simp only [search, hq, hc]
  rw [if_pos hty]
  simp only [tryBody, hf]
  simp [buildSearch]

/-- C2 witness: a track URL whose fetch rejects with a failure carrying
a load type and a non-empty message is translated into a normal outcome
with that load type, empty tracks and the message in the failure
field. -/
theorem c2_fetch_failure_translated_witness :
    runFunc {} (fun _ => .error (.jsError (some "NO_MATCHES") (some "boom"))) fAlbumFixed
        fPlaylistFixed "track" "1" = .error (.jsError (some "NO_MATCHES") (some "boom"))
    ∧ search {} origFixed (fun _ => .error (.jsError (some "NO_MATCHES") (some "boom")))
        fAlbumFixed fPlaylistFixed (fun _ => true) (Query.qstr "deezer.com/track/1") 0
      = .ok { loadType := "NO_MATCHES", tracks := [], playlist := none,
              exception := some { message := "boom", severity := "COMMON" } } :=
  ⟨rfl,
   c2_fetch_failure_translated {} origFixed
     (fun _ => .error (.jsError (some "NO_MATCHES") (some "boom")))
     fAlbumFixed fPlaylistFixed (fun _ => true) (Query.qstr "deezer.com/track/1") 0
     "deezer.com/track/1" "track" "1" (.jsError (some "NO_MATCHES") (some "boom"))
     rfl (by decide) (Or.inl rfl) rfl⟩

/-- C2 counterexample: a track URL whose fetch rejects with a failure
whose message property is the empty string is translated into an
outcome whose failure field is absent, so the outcome does not carry
the thrown failure's message. -/
theorem c2_counterexample :
    (fun (_ : String) => (.error (.jsError none (some "")) :
        Except JsError (Option RawTrack))) "1" = .error (.jsError none (some ""))
    ∧ search {} origFixed (fun _ => .error (.jsError none (some "")))
        fAlbumFixed fPlaylistFixed (fun _ => true) (Query.qstr "deezer.com/track/1") 0
      = .ok { loadType := "LOAD_FAILED", tracks := [], playlist := none, exception := none } :=
  ⟨rfl, by decide⟩

/-- C3 (amended): for every track-kind URL whose fetch succeeds, the
outcome has loadType TRACK_LOADED and no playlist summary; it contains
exactly the one fetched track when eager resolution is disabled or the
track's resolution succeeds, and zero tracks when eager resolution is
enabled and the resolution of the single track fails. -/
theorem c3_track_outcome {R : Type} (opts : DeezerOptions)
    (origSearch : Query → R → Except JsError (SearchResult R))
    (fT : String → Except JsError (Option RawTrack))
    (fA : String → Except JsError Album)
    (fP : String → Except JsError Playlist)
    (res : UnresolvedTrack R → Bool)
    (query : Query) (requester : R) (s id : String)
    (d : Option RawTrack) (q : UnresolvedQuery)
    (hq : getFinalQuery query = .ok s)
    (hc : classify s = some ("track", id))
    (hfT : fT id = .ok d)
    (hcv : convertToUnresolved d = .ok q) :
    search opts origSearch fT fA fP res query requester
      = .ok { loadType := "TRACK_LOADED",
              tracks := if opts.convertUnresolved.getD false
                           && !(res (buildUnresolved q requester))
                        then [] else [buildUnresolved q requester],
              playlist := none, exception := none } := by
  simp only [search, hq, hc]
  rw [if_pos (Or.inl trivial)]
  simp only [tryBody, runFunc, if_pos rfl, hfT, getTrack, hcv]
  cases hcu : opts.convertUnresolved.getD false with
  | false => simp [buildSearch, processTracks, hcu, exceptionOf]
  | true =>
    cases hres : res (buildUnresolved q requester) with
    | false => simp [buildSearch, processTracks, hcu, hres, exceptionOf]
    | true => simp [buildSearch, processTracks, hcu, hres, exceptionOf]

/-- C3 witness: with eager resolution disabled the outcome of a track
URL has exactly the one track, loadType TRACK_LOADED and no playlist
summary. -/
theorem c3_track_outcome_witness :
    search {} origFixed fTrackFixed fAlbumFixed fPlaylistFixed (fun _ => true)
        (Query.qstr "deezer.com/track/1") 0
      = .ok { loadType := "TRACK_LOADED",
              tracks := if ({} : DeezerOptions).convertUnresolved.getD false
                           && !((fun _ => true) (buildUnresolved
                                  { title := "Flowers", author := some "Miley",
                                    duration := some 215000 } 0))
                        then [] else [buildUnresolved
                                  { title := "Flowers", author := some "Miley",
                                    duration := some 215000 } 0],
              playlist := none, exception := none } :=
  c3_track_outcome {} origFixed fTrackFixed fAlbumFixed fPlaylistFixed (fun _ => true)
    (Query.qstr "deezer.com/track/1") 0 "deezer.com/track/1" "1"
    (some { artist := some { name := some "Miley" },
            title := some (.jstr "Flowers"), duration := some 215 })
    { title := "Flowers", author := some "Miley", duration := some 215000 }
    rfl (by decide) rfl rfl

/-- C3 counterexample: with eager resolution enabled and a failing
resolver, the fetch of a track URL succeeds with one normalized track,
yet the outcome contains zero tracks rather than exactly one. -/
theorem c3_counterexample :
    runFunc { convertUnresolved := some true } fTrackFixed fAlbumFixed fPlaylistFixed
        "track" "1"
      = .ok { tracks := [{ title := "Flowers", author := some "Miley",
                           duration := some 215000 }], name := none }
    ∧ search { convertUnresolved := some true } origFixed fTrackFixed fAlbumFixed
        fPlaylistFixed (fun _ => false) (Query.qstr "deezer.com/track/1") 0
      = .ok { loadType := "TRACK_LOADED", tracks := [], playlist := none,
              exception := none } :=
  ⟨by decide, by decide⟩

/-- C4: with eager resolution enabled the mapping step of the
interceptor keeps exactly the tracks whose resolution succeeded, in
their original relative order, as a filter of the built sequence: a
resolution failure removes only its own descriptor and never aborts
the processing of the remaining ones, and the output is a subsequence
of the input, so nothing is shifted or duplicated. -/
theorem c4_eager_resolution_filter {R : Type} (opts : DeezerOptions)
    (res : UnresolvedTrack R → Bool) (requester : R) (qs : List UnresolvedQuery)
    (h : opts.convertUnresolved = some true) :
    processTracks opts res requester qs
      = (qs.map (fun q => buildUnresolved q requester)).filter res
    ∧ (processTracks opts res requester qs).Sublist
        (qs.map (fun q => buildUnresolved q requester)) := by
  have hfilter : processTracks opts res requester qs
      = (qs.map (fun q => buildUnresolved q requester)).filter res := by
    induction qs with
    | nil => rfl
    | cons q rest ih =>
      have ih' := ih
      simp only [processTracks, h, Option.getD_some, if_true, List.filterMap_map,
        Function.id_comp] at ih' ⊢
      cases hres : res (buildUnresolved q requester) <;>
        simp [hres, List.filter_cons, List.filterMap_cons, ih']
  exact ⟨hfilter, hfilter ▸ List.filter_sublist _⟩

/-- C4 witness: five descriptors with the resolver failing exactly on
the third; the survivors are the first, second, fourth and fifth in
order. -/
theorem c4_eager_resolution_filter_witness :
    processTracks { convertUnresolved := some true }
        (fun t => !(t.title = "t3")) 0
        [{ title := "t1", author := none, duration := some 1 },
         { title := "t2", author := none, duration := some 2 },
         { title := "t3", author := none, duration := some 3 },
         { title := "t4", author := none, duration := some 4 },
         { title := "t5", author := none, duration := some 5 }]
      = ([{ title := "t1", author := none, duration := some 1 },
          { title := "t2", author := none, duration := some 2 },
          { title := "t3", author := none, duration := some 3 },
          { title := "t4", author := none, duration := some 4 },
          { title := "t5", author := none, duration := some 5 }].map
            (fun q => buildUnresolved q 0)).filter (fun t => !(t.title = "t3"))
    ∧ ([{ title := "t1", author := none, duration := some 1 },
          { title := "t2", author := none, duration := some 2 },
          { title := "t3", author := none, duration := some 3 },
          { title := "t4", author := none, duration := some 4 },
          { title := "t5", author := none, duration := some 5 }].map
            (fun (q : UnresolvedQuery) => buildUnresolved q (0 : Nat))).filter
              (fun t => !(t.title = "t3"))
      = [buildUnresolved { title := "t1", author := none, duration := some 1 } 0,
         buildUnresolved { title := "t2", author := none, duration := some 2 } 0,
         buildUnresolved { title := "t4", author := none, duration := some 4 } 0,
         buildUnresolved { title := "t5", author := none, duration := some 5 } 0] :=
  ⟨(c4_eager_resolution_filter { convertUnresolved := some true }
      (fun t => !(t.title = "t3")) 0 _ rfl).1, by decide⟩

/-- The second-layer container name is never the empty string. -/
theorem containerName_ne_empty (n : Option String) : containerName n ≠ "" := by
  match n with
  | none => simp [containerName]
  | some nm =>
    by_cases h : nm = "" <;> simp [containerName, h]

/-- The try block of the interceptor for a container kind whose
dispatch succeeded: a PLAYLIST_LOADED outcome whose playlist summary
holds the second-layer name and the duration reduce over the surviving
mapped tracks. -/
theorem tryBody_container {R : Type} (opts : DeezerOptions)
    (fT : String → Except JsError (Option RawTrack))
    (fA : String → Except JsError Album)
    (fP : String → Except JsError Playlist)
    (res : UnresolvedTrack R → Bool) (requester : R)
    (ty id : String) (data : Result)
    (hty : ty = "album" ∨ ty = "playlist")
    (hrf : runFunc opts fT fA fP ty id = .ok data) :
    tryBody opts fT fA fP res requester ty id
      = .ok { loadType := "PLAYLIST_LOADED",
              tracks := processTracks opts res requester data.tracks,
              playlist := some ⟨containerName data.name,
                sumDurations (processTracks opts res requester data.tracks)⟩,
              exception := none } := by
  rcases hty with h1 | h1 <;> subst h1 <;>
    simp [tryBody, hrf, buildSearch, containerName_ne_empty data.name, exceptionOf]

/-- C5: for every album or playlist URL whose dispatch succeeds, the
outcome's playlist summary duration equals the sum over the returned
tracks of their durations, a missing duration counting as zero; the
sum ranges over exactly the surviving tracks of the outcome, so it
also holds when raw items were dropped upstream for missing titles or
by eager resolution. -/
theorem c5_playlist_duration_sum {R : Type} (opts : DeezerOptions)
    (origSearch : Query → R → Except JsError (SearchResult R))
    (fT : String → Except JsError (Option RawTrack))
    (fA : String → Except JsError Album)
    (fP : String → Except JsError Playlist)
    (res : UnresolvedTrack R → Bool)
    (query : Query) (requester : R) (s ty id : String) (data : Result)
    (hq : getFinalQuery query = .ok s)
    (hc : classify s = some (ty, id))
    (hty : ty = "album" ∨ ty = "playlist")
    (hrf : runFunc opts fT fA fP ty id = .ok data) :
    ∃ r nm, search opts origSearch fT fA fP res query requester = .ok r
      ∧ r.playlist = some ⟨nm, (r.tracks.map (fun t => t.duration.getD 0)).sum⟩ := by
  have htb := tryBody_container opts fT fA fP res requester ty id data hty hrf
  refine ⟨{ loadType := "PLAYLIST_LOADED",
            tracks := processTracks opts res requester data.tracks,
            playlist := some ⟨containerName data.name,
              sumDurations (processTracks opts res requester data.tracks)⟩,
            exception := none }, containerName data.name, ?_, ?_⟩
  · rcases hty with h1 | h1 <;> subst h1 <;>
      simp only [search, hq, hc] <;> rw [if_pos (by simp)] <;> rw [htb]
  · simp [sumDurations_eq_sum]

/-- C5 witness: an album with one title-less raw item dropped, one
missing duration treated as zero, and the summary duration equal to
the sum over the returned tracks. -/
theorem c5_playlist_duration_sum_witness :
    ∃ r nm,
      search {} origFixed fTrackFixed
          (fun _ => .ok { name := some "Alb", tracks := { data :=
            [{ artist := some { name := some "A" }, title := some (.jstr "t1"),
               duration := some 10 },
             { artist := some { name := some "A" }, title := none, duration := some 99 },
             { artist := some { name := some "A" }, title := some (.jstr "t2"),
               duration := none }] } })
          fPlaylistFixed (fun _ => true) (Query.qstr "deezer.com/album/9") 0 = .ok r
      ∧ r.playlist = some ⟨nm, (r.tracks.map (fun t => t.duration.getD 0)).sum⟩ :=
  c5_playlist_duration_sum {} origFixed fTrackFixed
    (fun _ => .ok { name := some "Alb", tracks := { data :=
      [{ artist := some { name := some "A" }, title := some (.jstr "t1"),
         duration := some 10 },
       { artist := some { name := some "A" }, title := none, duration := some 99 },
       { artist := some { name := some "A" }, title := some (.jstr "t2"),
         duration := none }] } })
    fPlaylistFixed (fun _ => true) (Query.qstr "deezer.com/album/9") 0
    "deezer.com/album/9" "album" "9"
    { tracks := [{ title := "t1", author := some "A", duration := some 10000 },
                 { title := "t2", author := some "A", duration := none }],
      name := some "Alb" }
    rfl (by decide) (Or.inl rfl) (by decide)



/-- C6: for every positive configured album limit and every fetched
album whose normalization succeeded, the album fetcher returns exactly
the first elements of the normalized sequence: the result is the take
of the limit, a prefix of the normalized sequence in catalog order
whose length is the minimum of the limit and the sequence length. -/
theorem c6_album_limit_take (opts : DeezerOptions) (album : Album)
    (ts : List UnresolvedQuery) (n : Int)
    (hm : mapAlbumItems album.tracks.data = .ok ts)
    (hl : opts.albumLimit = some n) (hn : 0 < n) :
    getAlbumTracks opts album
      = .ok { tracks := ts.take n.toNat, name := some (albumName album.name) }
    ∧ ts.take n.toNat ++ ts.drop n.toNat = ts
    ∧ (ts.take n.toNat).length = min n.toNat ts.length := by
  have hne : n ≠ 0 := ne_of_gt hn
  refine ⟨?_, List.take_append_drop _ _, List.length_take _ _⟩
  simp [getAlbumTracks, hm, applyLimit, hl, hne]

/-- C6 witness: with albumLimit two and five valid tracks exactly the
first two are returned, in catalog order. -/
theorem c6_album_limit_take_witness :
    getAlbumTracks { albumLimit := some 2 }
        { name := some "A", tracks := { data :=
          [{ artist := some { name := some "a1" }, title := some (.jstr "s1"),
             duration := some 1 },
           { artist := some { name := some "a2" }, title := some (.jstr "s2"),
             duration := some 2 },
           { artist := some { name := some "a3" }, title := some (.jstr "s3"),
             duration := some 3 },
           { artist := some { name := some "a4" }, title := some (.jstr "s4"),
             duration := some 4 },
           { artist := some { name := some "a5" }, title := some (.jstr "s5"),
             duration := some 5 }] } }
      = .ok { tracks :=
                [{ title := "s1", author := some "a1", duration := some 1000 },
                 { title := "s2", author := some "a2", duration := some 2000 },
                 { title := "s3", author := some "a3", duration := some 3000 },
                 { title := "s4", author := some "a4", duration := some 4000 },
                 { title := "s5", author := some "a5", duration := some 5000 }].take
                   (Int.toNat 2),
              name := some (albumName (some "A")) } :=
  (c6_album_limit_take { albumLimit := some 2 }
    { name := some "A", tracks := { data :=
      [{ artist := some { name := some "a1" }, title := some (.jstr "s1"),
         duration := some 1 },
       { artist := some { name := some "a2" }, title := some (.jstr "s2"),
         duration := some 2 },
       { artist := some { name := some "a3" }, title := some (.jstr "s3"),
         duration := some 3 },
       { artist := some { name := some "a4" }, title := some (.jstr "s4"),
         duration := some 4 },
       { artist := some { name := some "a5" }, title := some (.jstr "s5"),
         duration := some 5 }] } }
    [{ title := "s1", author := some "a1", duration := some 1000 },
     { title := "s2", author := some "a2", duration := some 2000 },
     { title := "s3", author := some "a3", duration := some 3000 },
     { title := "s4", author := some "a4", duration := some 4000 },
     { title := "s5", author := some "a5", duration := some 5000 }]
    2 (by decide) rfl (by decide)).1

/-- C10: a configured album or playlist limit equal to zero, like an
absent one, is falsy and disables truncation: the fetcher returns the
entire normalized track sequence untruncated. -/
theorem c10_zero_limit_means_no_limit :
    (∀ (opts : DeezerOptions) (album : Album) (ts : List UnresolvedQuery),
      mapAlbumItems album.tracks.data = .ok ts →
      opts.albumLimit = none ∨ opts.albumLimit = some 0 →
      getAlbumTracks opts album = .ok { tracks := ts, name := some (albumName album.name) })
    ∧ (∀ (opts : DeezerOptions) (pl : Playlist) (ts : List UnresolvedQuery),
      mapPlaylistItems pl.tracks.data = .ok ts →
      opts.playlistLimit = none ∨ opts.playlistLimit = some 0 →
      getPlaylistTracks opts pl = .ok { tracks := ts, name := some (playlistName pl.name) }) := by
  constructor
  · intro opts album ts hm hl
    rcases hl with hl | hl <;> simp [getAlbumTracks, hm, applyLimit, hl]
  · intro opts pl ts hm hl
    rcases hl with hl | hl <;> simp [getPlaylistTracks, hm, applyLimit, hl]

/-- C10 witness: a zero album limit and an absent playlist limit both
return the full normalized sequence. -/
theorem c10_zero_limit_means_no_limit_witness :
    getAlbumTracks { albumLimit := some 0 }
        { name := none, tracks := { data :=
          [{ artist := some { name := some "a1" }, title := some (.jstr "s1"),
             duration := some 1 },
           { artist := some { name := some "a2" }, title := some (.jstr "s2"),
             duration := some 2 }] } }
      = .ok { tracks := [{ title := "s1", author := some "a1", duration := some 1000 },
                         { title := "s2", author := some "a2", duration := some 2000 }],
              name := some (albumName none) }
    ∧ getPlaylistTracks {}
        { name := some "P", tracks := { data :=
          [{ track := { artist := some { name := some "a1" },
                        title := some (.jstr "s1"), duration := some 1 } }] } }
      = .ok { tracks := [{ title := "s1", author := some "a1", duration := some 1000 }],
              name := some (playlistName (some "P")) } :=
  ⟨c10_zero_limit_means_no_limit.1 { albumLimit := some 0 }
     { name := none, tracks := { data :=
       [{ artist := some { name := some "a1" }, title := some (.jstr "s1"),
          duration := some 1 },
        { artist := some { name := some "a2" }, title := some (.jstr "s2"),
          duration := some 2 }] } }
     [{ title := "s1", author := some "a1", duration := some 1000 },
      { title := "s2", author := some "a2", duration := some 2000 }]
     (by decide) (Or.inr rfl),
   c10_zero_limit_means_no_limit.2 {}
     { name := some "P", tracks := { data :=
       [{ track := { artist := some { name := some "a1" },
                     title := some (.jstr "s1"), duration := some 1 } }] } }
     [{ title := "s1", author := some "a1", duration := some 1000 }]
     (by decide) (Or.inl rfl)⟩

/-- A title value that is present but not a string. -/
def titleIsNonString : Option JVal → Bool
  | some (.jnum _) => true
  | _ => false

/-- The normalizer failure condition exactly as the specification
sentence of the claim states it: the raw record is absent, the artist
field is absent, the title is absent, or the title is not a string. -/
def specNormalizeFails : Option RawTrack → Bool
  | none => true
  | some tr => tr.artist.isNone || tr.title.isNone || titleIsNonString tr.title

/-- The amended normalizer failure condition: the raw record is
absent, the artist field is absent, the title is absent or falsy (the
empty string or the number zero), or the title is not a string. -/
def normalizeFailsAmended : Option RawTrack → Bool
  | none => true
  | some tr => tr.artist.isNone || !(titleTruthy tr.title) || titleIsNonString tr.title

/-- A concrete raw record with artist present and title absent. -/
def noTitleTrack : RawTrack :=
  { artist := some { name := some "B" }, title := none, duration := some 2 }

/-- A concrete raw record with artist present and an empty string
title. -/
def emptyTitleTrack : RawTrack :=
  { artist := some { name := some "A" }, title := some (.jstr ""), duration := some 1 }

/-- A concrete raw record with artist present and a valid title. -/
def keepTrack : RawTrack :=
  { artist := some { name := some "A" }, title := some (.jstr "keep"), duration := some 1 }

/-- C7 (amended): a raw record with artist present but title absent is
silently excluded by the album and the playlist mapping steps, leaving
the remaining records normalized as before, while the single-track
fetcher fails whole with the normalizer's validation error; and the
normalizer fails exactly when the record is absent, the artist is
absent, the title is absent or falsy (for example the empty string),
or the title is not a string. -/
theorem c7_title_validation_paths :
    (∀ (xs ys : List RawTrack) (tr : RawTrack),
      tr.artist ≠ none → tr.title = none →
      mapAlbumItems (xs ++ tr :: ys) = mapAlbumItems (xs ++ ys))
    ∧ (∀ (xs ys : List PlaylistItem) (tr : RawTrack),
      tr.artist ≠ none → tr.title = none →
      mapPlaylistItems (xs ++ { track := tr } :: ys) = mapPlaylistItems (xs ++ ys))
    ∧ (∀ tr : RawTrack, tr.artist ≠ none → tr.title = none →
      getTrack (some tr) = .error (.refError "The track title was not provided"))
    ∧ (∀ t : Option RawTrack, (convertToUnresolved t).isOk = !(normalizeFailsAmended t)) := by
  refine ⟨?_, ?_, ?_, ?_⟩
  · intro xs ys tr hart htit
    induction xs with
    | nil => simp [mapAlbumItems, htit, titleTruthy]
    | cons x xs ih => simp only [List.cons_append, List.append_eq, mapAlbumItems, ih]
  · intro xs ys tr hart htit
    induction xs with
    | nil => simp [mapPlaylistItems, htit, titleTruthy]
    | cons x xs ih => simp only [List.cons_append, List.append_eq, mapPlaylistItems, ih]
  · intro tr hart htit
    rcases htr : tr.artist with _ | art
    · exact absurd htr hart
    · simp [getTrack, convertToUnresolved, htr, htit, titleTruthy]
  · intro t
    rcases t with _ | tr
    · rfl
    rcases htr : tr.artist with _ | art
    · simp [convertToUnresolved, normalizeFailsAmended, htr, Except.isOk, Except.toBool]
    rcases htit : tr.title with _ | tv
    · simp [convertToUnresolved, normalizeFailsAmended, htr, htit, titleTruthy,
        Except.isOk, Except.toBool]
    rcases tv with s | n
    · by_cases hs : s = "" <;>
        simp [convertToUnresolved, normalizeFailsAmended, htr, htit, titleTruthy,
          truthyJ, titleIsNonString, hs, Except.isOk, Except.toBool]
    · by_cases hn : n = 0 <;>
        simp [convertToUnresolved, normalizeFailsAmended, htr, htit, titleTruthy,
          truthyJ, titleIsNonString, hn, Except.isOk, Except.toBool]

/-- C7 witness: the three call-path branches and the characterization
at concrete records with artist present and title absent. -/
theorem c7_title_validation_paths_witness :
    mapAlbumItems [keepTrack, noTitleTrack] = mapAlbumItems [keepTrack]
    ∧ mapPlaylistItems [{ track := noTitleTrack }] = mapPlaylistItems []
    ∧ getTrack (some noTitleTrack)
        = .error (.refError "The track title was not provided")
    ∧ (convertToUnresolved (some noTitleTrack)).isOk
        = !(normalizeFailsAmended (some noTitleTrack)) :=
  ⟨c7_title_validation_paths.1 [keepTrack] [] noTitleTrack (by decide) rfl,
   c7_title_validation_paths.2.1 [] [] noTitleTrack (by decide) rfl,
   c7_title_validation_paths.2.2.1 noTitleTrack (by decide) rfl,
   c7_title_validation_paths.2.2.2 (some noTitleTrack)⟩

/-- C7 counterexample: a raw record whose artist is present and whose
title is present, a string, but empty: none of the claim's four
failure conditions holds, yet the normalizer fails on it, because the
source tests JavaScript truthiness of the title, not only presence. -/
theorem c7_counterexample :
    (convertToUnresolved (some emptyTitleTrack)).isOk = false
    ∧ specNormalizeFails (some emptyTitleTrack) = false :=
  ⟨by decide, by decide⟩

/-- The three entity kinds the REGEX alternation can capture. -/
inductive DKind where
  | track
  | album
  | playlist
deriving DecidableEq

/-- The capture-group text of a kind. -/
def kindName : DKind → String
  | .track => "track"
  | .album => "album"
  | .playlist => "playlist"

/-- The characters of a kind alternative, slash included. -/
def kindPre : DKind → List Char
  | .track => trackPre
  | .album => albumPre
  | .playlist => playlistPre

/-- A non-empty character list is not isEmpty. -/
theorem isEmpty_false_of_ne_nil (l : List Char) (h : l ≠ []) : l.isEmpty = false := by
  cases l with
  | nil => exact absurd rfl h
  | cons a as => rfl

/-- The kind-and-id tail of the pattern accepts each kind followed by a
non-empty all-digit id and captures both. -/
theorem matchKindId_kind (k : DKind) (idc : List Char) (hne : idc ≠ [])
    (hd : ∀ c ∈ idc, c.isDigit) :
    matchKindId (kindPre k ++ idc) = some (kindName k, String.mk idc) := by
  have htw := takeWhile_digits_all idc hd
  have hie := isEmpty_false_of_ne_nil idc hne
  cases k with
  | track =>
    have h1 : stripPre trackPre (trackPre ++ idc) = some idc := stripPre_append _ _
    simp [matchKindId, matchKind, kindPre, h1, htw, hie, kindName]
  | album =>
    have h0 : stripPre trackPre (albumPre ++ idc) = none := rfl
    have h1 : stripPre albumPre (albumPre ++ idc) = some idc := stripPre_append _ _
    simp [matchKindId, matchKind, kindPre, h0, h1, htw, hie, kindName]
  | playlist =>
    have h0 : stripPre trackPre (playlistPre ++ idc) = none := rfl
    have h00 : stripPre albumPre (playlistPre ++ idc) = none := rfl
    have h1 : stripPre playlistPre (playlistPre ++ idc) = some idc := stripPre_append _ _
    simp [matchKindId, matchKind, kindPre, h0, h00, h1, htw, hie, kindName]

/-- Without a locale segment the optional locale group of the pattern
cannot fire on any kind alternative, because the third character of
each kind name is not a slash, so the core falls through to the kind
match directly. -/
theorem classifyCore_noLocale (k : DKind) (idc : List Char) :
    classifyCore (kindPre k ++ idc) = matchKindId (kindPre k ++ idc) := by
  cases k <;> rfl

/-- With a two-word-char locale segment whose tail matches, the greedy
optional locale group fires and the core returns the tail's capture. -/
theorem classifyCore_locale (c1 c2 : Char) (rest : List Char) (r : String × String)
    (h1 : isWordChar c1 = true) (h2 : isWordChar c2 = true)
    (hm : matchKindId rest = some r) :
    classifyCore (c1 :: c2 :: '/' :: rest) = some r := by
  simp [classifyCore, h1, h2, hm]

/-- The optional scheme group strips a leading https scheme. -/
theorem stripScheme_https (t : List Char) : stripScheme (httpsPre ++ t) = t := by
  simp [stripScheme, stripPre_append]

/-- The optional www group strips a leading www segment. -/
theorem stripWww_www (t : List Char) : stripWww (wwwPre ++ t) = t := by
  simp [stripWww, stripPre_append]

/-- An input that starts with the host is unchanged by the optional
scheme group. -/
theorem stripScheme_host (t : List Char) : stripScheme (hostPre ++ t) = hostPre ++ t := rfl

/-- An input that starts with the host is unchanged by the optional
www group. -/
theorem stripWww_host (t : List Char) : stripWww (hostPre ++ t) = hostPre ++ t := rfl

/-- C8: the classifier extracts the same kind and numeric id pair from
the fully qualified form with scheme, www prefix and two-word-char
locale segment as from the bare-host form, for every kind and every
non-empty all-digit id; on the concrete spec examples it yields
playlist 123456 and album 7, and an ordinary text query yields none
rather than an error (the classifier is a total function). -/
theorem c8_classifier :
    (∀ (c1 c2 : Char) (k : DKind) (idc : List Char),
      isWordChar c1 = true → isWordChar c2 = true → idc ≠ [] →
      (∀ c ∈ idc, c.isDigit) →
      classifyL (httpsPre ++ (wwwPre ++ (hostPre
            ++ (c1 :: c2 :: '/' :: (kindPre k ++ idc)))))
          = some (kindName k, String.mk idc)
        ∧ classifyL (hostPre ++ (kindPre k ++ idc)) = some (kindName k, String.mk idc))
    ∧ classify "https://www.deezer.com/fr/playlist/123456" = some ("playlist", "123456")
    ∧ classify "deezer.com/album/7" = some ("album", "7")
    ∧ classify "flowers by miley" = none := by
  refine ⟨?_, by decide, by decide, by decide⟩
  intro c1 c2 k idc h1 h2 hne hd
  constructor
  · unfold classifyL
    rw [stripScheme_https, stripWww_www, stripPre_append]
    exact classifyCore_locale c1 c2 _ _ h1 h2 (matchKindId_kind k idc hne hd)
  · unfold classifyL
    rw [stripScheme_host, stripWww_host, stripPre_append]
    show classifyCore (kindPre k ++ idc) = some (kindName k, String.mk idc)
    rw [classifyCore_noLocale]
    exact matchKindId_kind k idc hne hd

/-- C8 witness: the general form equivalence at the locale fr, the
playlist kind and the id 123456. -/
theorem c8_classifier_witness :
    classifyL (httpsPre ++ (wwwPre ++ (hostPre
          ++ ('f' :: 'r' :: '/' :: (kindPre .playlist ++ "123456".data)))))
        = some (kindName .playlist, String.mk "123456".data)
      ∧ classifyL (hostPre ++ (kindPre .playlist ++ "123456".data))
        = some (kindName .playlist, String.mk "123456".data) :=
  c8_classifier.1 'f' 'r' .playlist "123456".data (by decide) (by decide)
    (by decide) (by decide)
